import Mathlib

/-!
Shallow embedding of `src/submit50-classroom/submit50-classroom/src/submit50/git.py`.

The module shells out to the `git` binary via `subprocess.check_output`.  We
model the external world as an oracle `Runner` mapping a full argument vector
(including the leading `"git"`) to the outcome of that process invocation, and
we thread an explicit `Log` of every argument vector invoked, in order, so that
sequencing properties (which commands ran, and with which flags) are provable.

Python exceptions are modelled with `Except PyError`:
`PyError.calledProcessError` is `subprocess.CalledProcessError` (non-zero
exit), `PyError.fileNotFoundError` is `FileNotFoundError` (executable
missing), and `PyError.runtimeError msg` is `RuntimeError(msg)` — the
user-facing errors this module raises.
-/

deriving instance DecidableEq for Except

namespace Submit50

/-- Outcome of one invocation of the external `git` binary:
captured stdout on success (we model decoded bytes as a `String`),
non-zero exit, or missing executable. -/
inductive ExecResult where
  | success (output : String)
  | calledProcessError
  | fileNotFoundError
deriving DecidableEq

/-- Python exceptions that flow through this module. -/
inductive PyError where
  | runtimeError (msg : String)
  | calledProcessError
  | fileNotFoundError
deriving DecidableEq

/-- The external world: what each process invocation (full argv) returns. -/
abbrev Runner := List String → ExecResult

/-- Ordered log of every process invocation performed (each entry a full argv). -/
abbrev Log := List (List String)

/-- `git(args)` (module level): `subprocess.check_output(['git', *args])`.
Returns stdout on success; raises `CalledProcessError` on non-zero exit and
`FileNotFoundError` when the executable is missing.  The invocation is
appended to the log. -/
def git (run : Runner) (args : List String) (log : Log) : Log × Except PyError String :=
  (log ++ [("git" :: args)],
    match run ("git" :: args) with
    | .success o => .ok o
    | .calledProcessError => .error .calledProcessError
    | .fileNotFoundError => .error .fileNotFoundError)

/-- `config(args)` (module level): `git(['config', *args])`. -/
def config (run : Runner) (args : List String) (log : Log) : Log × Except PyError String :=
  git run ("config" :: args) log

/-- `clone(args)` (module level): `git(['clone', *args])`. -/
def clone (run : Runner) (args : List String) (log : Log) : Log × Except PyError String :=
  git run ("clone" :: args) log

/-- What Python's `not_configured(key)` returns: either the raw query output
(the `return config(['--get', key])` line) or the literal `True` from the
`except CalledProcessError` handler.  The trailing `return False` line of the
source is unreachable: the `try` block returns on every path. -/
inductive NotConfiguredResult where
  | output (s : String)
  | queryFailed
deriving DecidableEq

/-- Python truthiness of a `not_configured` result, as consumed by the
`if ..._not_configured():` tests: bytes are truthy iff non-empty; `True` is
truthy. -/
def NotConfiguredResult.truthy : NotConfiguredResult → Bool
  | .output s => s ≠ ""
  | .queryFailed => true

/-- `not_configured(key)`: queries `git config --get <key>`; on success
returns the query output, on `CalledProcessError` returns `True`
(`FileNotFoundError` propagates). -/
def not_configured (run : Runner) (key : String) (log : Log) :
    Log × Except PyError NotConfiguredResult :=
  let p := config run ["--get", key] log
  (p.1, match p.2 with
    | .ok o => .ok (.output o)
    | .error .calledProcessError => .ok .queryFailed
    | .error e => .error e)

/-- `user_name_not_configured()`. -/
def user_name_not_configured (run : Runner) (log : Log) :
    Log × Except PyError NotConfiguredResult :=
  not_configured run "user.name" log

/-- `user_email_not_configured()`. -/
def user_email_not_configured (run : Runner) (log : Log) :
    Log × Except PyError NotConfiguredResult :=
  not_configured run "user.email" log

/-- `credential_helper_not_configured()`. -/
def credential_helper_not_configured (run : Runner) (log : Log) :
    Log × Except PyError NotConfiguredResult :=
  not_configured run "credential.helper" log

/-- `assert_git_installed()`: runs `git --version`; a `FileNotFoundError` is
re-raised as a user-facing `RuntimeError`; any other failure propagates. -/
def assert_git_installed (run : Runner) (log : Log) : Log × Except PyError Unit :=
  let p := git run ["--version"] log
  (p.1, match p.2 with
    | .ok _ => .ok ()
    | .error .fileNotFoundError =>
        .error (.runtimeError "It looks like git is not installed. Please install git then try again.")
    | .error e => .error e)

/-- `os.path.join(a, b)` on POSIX (`posixpath.join`) for the two-argument
call used to build remote URLs: if `b` is absolute it wins; otherwise a `/`
separator is inserted unless `a` is empty or already ends with `/`. -/
def posixJoin (a b : String) : String :=
  if b.data.head? = some '/' then b
  else if a = "" ∨ a.data.getLast? = some '/' then a ++ b
  else a ++ "/" ++ b

/-- Python whitespace characters recognised by `str.split()` / `str.rstrip()`
for the ASCII range: space, tab, newline, carriage return, vertical tab,
form feed. -/
def isPySpace (c : Char) : Bool :=
  c == ' ' || c == '\t' || c == '\n' || c == '\r' || c == Char.ofNat 11 || c == Char.ofNat 12

/-- Worker for `str.split()` (no separator): splits on runs of whitespace and
drops empty pieces; `acc` holds the current word, reversed. -/
def pySplitAux : List Char → List Char → List String
  | [], acc => if acc.isEmpty then [] else [String.mk acc.reverse]
  | c :: cs, acc =>
    if isPySpace c then
      if acc.isEmpty then pySplitAux cs [] else String.mk acc.reverse :: pySplitAux cs []
    else
      pySplitAux cs (c :: acc)

/-- Python `s.split()` with no separator argument. -/
def pySplit (s : String) : List String := pySplitAux s.data []

/-- Python `s.rstrip()`: strip trailing whitespace. -/
def pyRstrip (s : String) : String := String.mk (s.data.reverse.dropWhile isPySpace).reverse

/-- Lexicographic `≤` on code-point sequences, Python's `<=` on `str`. -/
def lexLe : List Char → List Char → Bool
  | [], _ => true
  | _ :: _, [] => false
  | a :: as, b :: bs => if a < b then true else if b < a then false else lexLe as bs

/-- Python's `<=` on strings: lexicographic by code point. -/
def pyStrLe (a b : String) : Bool := lexLe a.data b.data

/-- Insert a string into a list, before the first element it is `<=` to. -/
def pyInsert (x : String) : List String → List String
  | [] => [x]
  | y :: ys => if pyStrLe x y then x :: y :: ys else y :: pyInsert x ys

/-- Python `sorted` on a list of strings: stable ascending sort by the
(total) lexicographic order on strings (any stable sort by a total preorder
computes the same list; we use insertion sort). -/
def pySorted : List String → List String
  | [] => []
  | x :: xs => pyInsert x (pySorted xs)

/-- How `git ls-files` reports a set of tracked files: each file name on its
own line (used to describe the output of the list-files invocation). -/
def lsFilesOutput : List String → String
  | [] => ""
  | n :: ns => n ++ "\n" ++ lsFilesOutput ns

/-- `GitClient.__init__(repo, git_host='git@github.com:')`: `git_host` is
`os.getenv('SUBMIT50_GIT_HOST', git_host)` (the environment variable wins
when set), `git_dir` starts out `None`.  `env` models the value of
`SUBMIT50_GIT_HOST`. -/
structure GitClient where
  git_host : String
  repo : String
  git_dir : Option String
deriving DecidableEq

/-- Constructor of `GitClient`. -/
def GitClient.init (env : Option String) (repo : String)
    (git_host : String := "git@github.com:") : GitClient :=
  { git_host := env.getD git_host, repo := repo, git_dir := none }

/-- `AssignmentTemplateGitClient.clone()`: clones `self.repo` into a fresh
temporary directory `temp_dir` (the name of that directory is a parameter of
the model) via the module-level `clone`, and yields the directory.
`CalledProcessError` becomes `RuntimeError('Failed to clone "<remote>".')`;
other failures propagate.  `AssignmentTemplateGitClient` adds no fields to
`GitClient`, so its instances are modelled by `GitClient`. -/
def AssignmentTemplateGitClient.clone (c : GitClient) (run : Runner)
    (temp_dir : String) (log : Log) : Log × Except PyError String :=
  let remote := posixJoin c.git_host c.repo
  let p := Submit50.clone run ["--depth", "1", "--quiet", remote, temp_dir] log
  (p.1, match p.2 with
    | .ok _ => .ok temp_dir
    | .error .calledProcessError =>
        .error (.runtimeError ("Failed to clone \"" ++ remote ++ "\"."))
    | .error e => .error e)

/-- `StudentAssignmentGitClient`: a `GitClient` plus the student's
`username` and the derived `configs` override list. -/
structure StudentAssignmentGitClient extends GitClient where
  username : String
  configs : List String
deriving DecidableEq

/-- `StudentAssignmentGitClient._default_configs()`: three sequential
configuration queries; after each, the matching `-c key=value` pair is
appended iff the query result is truthy.  An uncaught exception from a query
(`FileNotFoundError`) aborts the remaining queries and propagates. -/
def StudentAssignmentGitClient.default_configs (run : Runner) (username : String)
    (log : Log) : Log × Except PyError (List String) :=
  let p1 := user_name_not_configured run log
  match p1.2 with
  | .error e => (p1.1, .error e)
  | .ok v1 =>
    let cfgs1 := if v1.truthy then ["-c", "user.name=" ++ username] else []
    let p2 := user_email_not_configured run p1.1
    match p2.2 with
    | .error e => (p2.1, .error e)
    | .ok v2 =>
      let cfgs2 := cfgs1 ++
        (if v2.truthy then ["-c", "user.email=" ++ username ++ "@users.noreply.github.com"] else [])
      let p3 := credential_helper_not_configured run p2.1
      match p3.2 with
      | .error e => (p3.1, .error e)
      | .ok v3 =>
        (p3.1, .ok (cfgs2 ++ (if v3.truthy then ["-c", "credential.helper=cache"] else [])))

/-- `StudentAssignmentGitClient.__init__(username, repo, git_host=...)`:
stores the username, runs the `GitClient` constructor, then derives
`self.configs = self._default_configs()`. -/
def StudentAssignmentGitClient.init (run : Runner) (env : Option String)
    (username repo : String) (log : Log) (git_host : String := "git@github.com:") :
    Log × Except PyError StudentAssignmentGitClient :=
  let base := GitClient.init env repo git_host
  let p := StudentAssignmentGitClient.default_configs run username log
  (p.1, p.2.map fun cfgs => { toGitClient := base, username := username, configs := cfgs })

/-- The argument vector built by `StudentAssignmentGitClient._git(args)`
before the binary name: `['--git-dir', self.git_dir] if self.git_dir else []`
(Python truthiness: `None` and the empty string are falsy), then
`'--work-tree', os.getcwd()`, then the derived configs, then `args`.
`cwd` models `os.getcwd()`. -/
def StudentAssignmentGitClient.gitArgs (c : StudentAssignmentGitClient)
    (cwd : String) (args : List String) : List String :=
  (match c.git_dir with
   | some d => if d = "" then [] else ["--git-dir", d]
   | none => []) ++ ["--work-tree", cwd] ++ c.configs ++ args

/-- `StudentAssignmentGitClient._git(args)`: module-level `git` on the
assembled argument vector. -/
def StudentAssignmentGitClient.git_call (c : StudentAssignmentGitClient)
    (run : Runner) (cwd : String) (args : List String) (log : Log) :
    Log × Except PyError String :=
  git run (c.gitArgs cwd args) log

/-- `StudentAssignmentGitClient._clone(args)`: `self._git(['clone', *args])`. -/
def StudentAssignmentGitClient.clone_call (c : StudentAssignmentGitClient)
    (run : Runner) (cwd : String) (args : List String) (log : Log) :
    Log × Except PyError String :=
  c.git_call run cwd ("clone" :: args) log

/-- `StudentAssignmentGitClient.clone_bare()`: bare, quiet clone of the
remote into a fresh temporary directory `git_dir` (a parameter of the
model); on success `self.git_dir` is set to that directory and it is
yielded.  `CalledProcessError` becomes the user-facing `RuntimeError`
before `self.git_dir` is ever assigned; other failures propagate, also
before assignment.  The (possibly updated) instance is returned alongside
the log and the result. -/
def StudentAssignmentGitClient.clone_bare (c : StudentAssignmentGitClient)
    (run : Runner) (cwd git_dir : String) (log : Log) :
    Log × StudentAssignmentGitClient × Except PyError String :=
  let remote := posixJoin c.git_host c.repo
  let p := c.clone_call run cwd ["--bare", "--quiet", remote, git_dir] log
  match p.2 with
  | .ok _ => (p.1, { c with git_dir := some git_dir }, .ok git_dir)
  | .error .calledProcessError =>
      (p.1, c, .error (.runtimeError ("Failed to clone \"" ++ remote ++
        "\".\nPlease make sure you accepted the assignment invite on the problem set page.")))
  | .error e => (p.1, c, .error e)

/-- `StudentAssignmentGitClient._add_all()`: `self._git(['add', '--all'])`. -/
def StudentAssignmentGitClient.add_all (c : StudentAssignmentGitClient)
    (run : Runner) (cwd : String) (log : Log) : Log × Except PyError String :=
  c.git_call run cwd ["add", "--all"] log

/-- `StudentAssignmentGitClient._ls_files()`:
`sorted(self._git(['ls-files']).decode().split())`. -/
def StudentAssignmentGitClient.ls_files (c : StudentAssignmentGitClient)
    (run : Runner) (cwd : String) (log : Log) : Log × Except PyError (List String) :=
  let p := c.git_call run cwd ["ls-files"] log
  (p.1, p.2.map fun out => pySorted (pySplit out))

/-- `StudentAssignmentGitClient.add()`: stage everything, then list tracked
files; a `CalledProcessError` from either step becomes
`RuntimeError('Failed to ready files for submission.')`; other failures
propagate. -/
def StudentAssignmentGitClient.add (c : StudentAssignmentGitClient)
    (run : Runner) (cwd : String) (log : Log) : Log × Except PyError (List String) :=
  let p := c.add_all run cwd log
  match p.2 with
  | .error .calledProcessError =>
      (p.1, .error (.runtimeError "Failed to ready files for submission."))
  | .error e => (p.1, .error e)
  | .ok _ =>
    let q := c.ls_files run cwd p.1
    match q.2 with
    | .error .calledProcessError =>
        (q.1, .error (.runtimeError "Failed to ready files for submission."))
    | .error e => (q.1, .error e)
    | .ok files => (q.1, .ok files)

/-- `StudentAssignmentGitClient._commit()`. -/
def StudentAssignmentGitClient.commit (c : StudentAssignmentGitClient)
    (run : Runner) (cwd : String) (log : Log) : Log × Except PyError String :=
  c.git_call run cwd ["commit", "--allow-empty", "--message", "Automated commit by submit50"] log

/-- `StudentAssignmentGitClient._current_branch()`:
`self._git(['branch', '--show-current']).decode().rstrip()`. -/
def StudentAssignmentGitClient.current_branch (c : StudentAssignmentGitClient)
    (run : Runner) (cwd : String) (log : Log) : Log × Except PyError String :=
  let p := c.git_call run cwd ["branch", "--show-current"] log
  (p.1, p.2.map pyRstrip)

/-- `StudentAssignmentGitClient._push()`: determine the current branch, then
`self._git(['push', '--quiet', 'origin', current_branch])`. -/
def StudentAssignmentGitClient.push (c : StudentAssignmentGitClient)
    (run : Runner) (cwd : String) (log : Log) : Log × Except PyError String :=
  let p := c.current_branch run cwd log
  match p.2 with
  | .ok current_branch => c.git_call run cwd ["push", "--quiet", "origin", current_branch] p.1
  | .error e => (p.1, .error e)

/-- `StudentAssignmentGitClient.commit_push()`: `self._commit()` then
`self._push()`; a `CalledProcessError` from either becomes
`RuntimeError('Failed to submit.')`; other failures propagate. -/
def StudentAssignmentGitClient.commit_push (c : StudentAssignmentGitClient)
    (run : Runner) (cwd : String) (log : Log) : Log × Except PyError Unit :=
  let p := c.commit run cwd log
  match p.2 with
  | .error .calledProcessError => (p.1, .error (.runtimeError "Failed to submit."))
  | .error e => (p.1, .error e)
  | .ok _ =>
    let q := c.push run cwd p.1
    match q.2 with
    | .error .calledProcessError => (q.1, .error (.runtimeError "Failed to submit."))
    | .error e => (q.1, .error e)
    | .ok _ => (q.1, .ok ())

/-! ### Concrete scenarios used by witnesses and counterexamples -/

/-- A world in which every process invocation exits non-zero. -/
def failRun : Runner := fun _ => .calledProcessError

/-- A world in which the `git` executable is missing. -/
def missingRun : Runner := fun _ => .fileNotFoundError

/-- A world in which every invocation succeeds; `git branch --show-current`
prints `main`, everything else prints nothing. -/
def okRun : Runner := fun argv =>
  if argv.getLast? = some "--show-current" then .success "main\n" else .success ""

/-- A world in which the three global configuration keys are all set
(each `git config --get <key>` succeeds with non-empty output). -/
def configuredRun : Runner := fun argv =>
  if argv = ["git", "config", "--get", "user.name"] then .success "Alice\n"
  else if argv = ["git", "config", "--get", "user.email"] then .success "alice@example.com\n"
  else if argv = ["git", "config", "--get", "credential.helper"] then .success "osxkeychain\n"
  else .success ""

/-- A world in which every invocation succeeds and `git ls-files` reports a
single tracked file whose name contains a space. -/
def spaceFileRun : Runner := fun argv =>
  if argv.getLast? = some "ls-files" then .success "a b\n" else .success ""

/-- A world in which every invocation succeeds and `git ls-files` reports
the two tracked files `b` and `a`, in that order. -/
def lsRun : Runner := fun argv =>
  if argv.getLast? = some "ls-files" then .success "b\na\n" else .success ""

/-- The client of the spec's end-to-end scenario: identity `alice`,
repository `org/repo`, default host, nothing configured globally (so all
three overrides are present), not yet bound to a clone directory. -/
def aliceClient : StudentAssignmentGitClient :=
  { git_host := "git@github.com:", repo := "org/repo", git_dir := none,
    username := "alice",
    configs := ["-c", "user.name=alice", "-c", "user.email=alice@users.noreply.github.com",
                "-c", "credential.helper=cache"] }

/-- `aliceClient` after a successful bare clone into `/tmp/x`. -/
def boundClient : StudentAssignmentGitClient := { aliceClient with git_dir := some "/tmp/x" }

/-- Like `aliceClient` but with the non-default host prefix
`git@gitlab.com:` (e.g. via the environment variable): the derived
override list is identical. -/
def gitlabClient : StudentAssignmentGitClient :=
  { git_host := "git@gitlab.com:", repo := "org/repo", git_dir := none,
    username := "alice",
    configs := ["-c", "user.name=alice", "-c", "user.email=alice@users.noreply.github.com",
                "-c", "credential.helper=cache"] }

/-- Full argv of the commit invocation issued by `commit_push`. -/
def commitArgv (c : StudentAssignmentGitClient) (cwd : String) : List String :=
  "git" :: c.gitArgs cwd ["commit", "--allow-empty", "--message", "Automated commit by submit50"]

/-- Full argv of the branch-name query issued by `commit_push`. -/
def branchArgv (c : StudentAssignmentGitClient) (cwd : String) : List String :=
  "git" :: c.gitArgs cwd ["branch", "--show-current"]

/-- Full argv of the push issued by `commit_push` for branch `b`. -/
def pushArgv (c : StudentAssignmentGitClient) (cwd b : String) : List String :=
  "git" :: c.gitArgs cwd ["push", "--quiet", "origin", b]

/-- Full argv of the bare-clone invocation issued by `clone_bare` into
temporary directory `tmp`. -/
def cloneBareArgv (c : StudentAssignmentGitClient) (cwd tmp : String) : List String :=
  "git" :: c.gitArgs cwd ["clone", "--bare", "--quiet", posixJoin c.git_host c.repo, tmp]

example : posixJoin "git@github.com:" "org/repo" = "git@github.com:/org/repo" := by decide
example : pySplit "a b\n" = ["a", "b"] := by decide
example : pyRstrip "main\n" = "main" := by decide
example : pySorted ["b", "a"] = ["a", "b"] := by decide
example : (StudentAssignmentGitClient.init failRun none "alice" "org/repo" []).2 =
    .ok aliceClient := by decide

/-! ### Lemmas about the sorting helper -/

theorem pyInsert_perm (x : String) (l : List String) : (pyInsert x l).Perm (x :: l) := by
  induction l with
  | nil => exact List.Perm.refl _
  | cons y ys ih =>
    simp only [pyInsert]
    split
    · exact List.Perm.refl _
    · exact (ih.cons y).trans (List.Perm.swap x y ys)

theorem pySorted_perm (l : List String) : (pySorted l).Perm l := by
  induction l with
  | nil => exact List.Perm.refl _
  | cons x xs ih => exact (pyInsert_perm x (pySorted xs)).trans (ih.cons x)

theorem lexLe_total (a b : List Char) : lexLe a b = true ∨ lexLe b a = true := by
  induction a generalizing b with
  | nil => left; rfl
  | cons c cs ih =>
    cases b with
    | nil => right; rfl
    | cons d ds =>
      rcases lt_trichotomy c d with h | h | h
      · left; simp [lexLe, h]
      · subst h; simpa [lexLe] using ih ds
      · right; simp [lexLe, h]

theorem lexLe_trans {a b c : List Char} (h1 : lexLe a b = true) (h2 : lexLe b c = true) :
    lexLe a c = true := by
  induction a generalizing b c with
  | nil => rfl
  | cons x as ih =>
    cases b with
    | nil => simp [lexLe] at h1
    | cons y bs =>
      cases c with
      | nil => simp [lexLe] at h2
      | cons z cs =>
        simp only [lexLe] at h1 h2 ⊢
        rcases lt_trichotomy x y with hxy | hxy | hxy
        · rcases lt_trichotomy y z with hyz | hyz | hyz
          · simp [lt_trans hxy hyz]
          · subst hyz; simp [hxy]
          · rw [if_neg (asymm hyz), if_pos hyz] at h2; exact absurd h2 (by simp)
        · subst hxy
          rw [if_neg (lt_irrefl x), if_neg (lt_irrefl x)] at h1
          rcases lt_trichotomy x z with hxz | hxz | hxz
          · simp [hxz]
          · subst hxz
            rw [if_neg (lt_irrefl x), if_neg (lt_irrefl x)] at h2 ⊢
            exact ih h1 h2
          · rw [if_neg (asymm hxz), if_pos hxz] at h2; exact absurd h2 (by simp)
        · rw [if_neg (asymm hxy), if_pos hxy] at h1; exact absurd h1 (by simp)

theorem pairwise_pyInsert (x : String) (l : List String)
    (h : l.Pairwise (fun a b => pyStrLe a b = true)) :
    (pyInsert x l).Pairwise (fun a b => pyStrLe a b = true) := by
  induction l with
  | nil => simp [pyInsert]
  | cons y ys ih =>
    rcases List.pairwise_cons.mp h with ⟨hy, hys⟩
    by_cases hxy : pyStrLe x y = true
    · simp only [pyInsert, hxy, if_pos]
      refine List.pairwise_cons.mpr ⟨?_, h⟩
      intro z hz
      rcases List.mem_cons.mp hz with rfl | hz
      · exact hxy
      · exact lexLe_trans hxy (hy z hz)
    · have hyx : pyStrLe y x = true := by
        rcases lexLe_total x.data y.data with ht | ht
        · exact absurd ht hxy
        · exact ht
      simp only [pyInsert, hxy, if_neg]
      refine List.pairwise_cons.mpr ⟨?_, ih hys⟩
      intro z hz
      have hz' := (pyInsert_perm x ys).mem_iff.mp hz
      rcases List.mem_cons.mp hz' with rfl | hz'
      · exact hyx
      · exact hy z hz'

theorem pySorted_pairwise (l : List String) :
    (pySorted l).Pairwise (fun a b => pyStrLe a b = true) := by
  induction l with
  | nil => simp [pySorted]
  | cons x xs ih => exact pairwise_pyInsert x (pySorted xs) ih

/-! ### Lemmas about the splitting helper -/

theorem pySplitAux_word (w : List Char) (rest : List Char)
    (hw : ∀ ch ∈ w, isPySpace ch = false) :
    ∀ acc : List Char, acc ≠ [] ∨ w ≠ [] →
      pySplitAux (w ++ '\n' :: rest) acc =
        String.mk (acc.reverse ++ w) :: pySplitAux rest [] := by
  induction w with
  | nil =>
    intro acc hne
    have hacc : acc ≠ [] := by
      rcases hne with h | h
      · exact h
      · exact absurd rfl h
    have hnl : isPySpace '\n' = true := by decide
    simp [pySplitAux, hacc, hnl]
  | cons ch w ihw =>
    intro acc _
    have hch : isPySpace ch = false := hw ch (List.mem_cons_self _ _)
    simp only [List.cons_append, pySplitAux, hch, Bool.false_eq_true, if_false, List.append_eq]
    rw [ihw (fun c hc => hw c (List.mem_cons_of_mem _ hc)) (ch :: acc) (Or.inl (by simp))]
    simp

theorem pySplit_lsFilesOutput (names : List String)
    (h : ∀ n ∈ names, n.data ≠ [] ∧ ∀ ch ∈ n.data, isPySpace ch = false) :
    pySplit (lsFilesOutput names) = names := by
  induction names with
  | nil => rfl
  | cons n ns ih =>
    have hn := h n (List.mem_cons_self _ _)
    have hdata : (lsFilesOutput (n :: ns)).data = n.data ++ '\n' :: (lsFilesOutput ns).data := by
      show (n ++ "\n" ++ lsFilesOutput ns).data = _
      rw [String.data_append, String.data_append,
        show "\n".data = ['\n'] from rfl, List.append_assoc]
      rfl
    unfold pySplit
    rw [hdata, pySplitAux_word n.data _ hn.2 [] (Or.inr hn.1)]
    simp only [List.reverse_nil, List.nil_append]
    rw [show String.mk n.data = n from by cases n; rfl]
    exact congrArg (n :: ·) (ih fun m hm => h m (List.mem_cons_of_mem _ hm))

/-! ### Result-shape lemmas for the process wrapper and the public operations -/

theorem git_snd_cases (run : Runner) (args : List String) :
    (∀ log, (git run args log).2 = .error .calledProcessError) ∨
    (∀ log, (git run args log).2 = .error .fileNotFoundError) ∨
    ∃ o, run ("git" :: args) = .success o ∧ ∀ log, (git run args log).2 = .ok o := by
  unfold git
  cases h : run ("git" :: args)
  · exact Or.inr (Or.inr ⟨_, rfl, fun log => by simp [h]⟩)
  · exact Or.inl fun log => by simp [h]
  · exact Or.inr (Or.inl fun log => by simp [h])

theorem git_fst (run : Runner) (args : List String) (log : Log) :
    (git run args log).1 = log ++ [("git" :: args)] := rfl

theorem template_clone_cases (g : GitClient) (run : Runner) (temp_dir : String) (log : Log) :
    (AssignmentTemplateGitClient.clone g run temp_dir log).2 = .ok temp_dir ∨
    (AssignmentTemplateGitClient.clone g run temp_dir log).2 =
      .error (.runtimeError ("Failed to clone \"" ++ posixJoin g.git_host g.repo ++ "\".")) ∨
    (AssignmentTemplateGitClient.clone g run temp_dir log).2 = .error .fileNotFoundError := by
  have h := git_snd_cases run ("clone" :: ["--depth", "1", "--quiet", posixJoin g.git_host g.repo, temp_dir])
  unfold AssignmentTemplateGitClient.clone clone
  rcases h with h | h | ⟨o, _, h⟩ <;> simp [h]

theorem clone_bare_cases (c : StudentAssignmentGitClient) (run : Runner)
    (cwd tmp : String) (log : Log) :
    (c.clone_bare run cwd tmp log).2.2 = .ok tmp ∨
    (c.clone_bare run cwd tmp log).2.2 =
      .error (.runtimeError ("Failed to clone \"" ++ posixJoin c.git_host c.repo ++
        "\".\nPlease make sure you accepted the assignment invite on the problem set page.")) ∨
    (c.clone_bare run cwd tmp log).2.2 = .error .fileNotFoundError := by
  have h := git_snd_cases run (c.gitArgs cwd ("clone" :: ["--bare", "--quiet", posixJoin c.git_host c.repo, tmp]))
  unfold StudentAssignmentGitClient.clone_bare StudentAssignmentGitClient.clone_call
    StudentAssignmentGitClient.git_call
  rcases h with h | h | ⟨o, _, h⟩ <;> simp [h]

theorem add_cases (c : StudentAssignmentGitClient) (run : Runner) (cwd : String) (log : Log) :
    (∃ files, (c.add run cwd log).2 = .ok files) ∨
    (c.add run cwd log).2 = .error (.runtimeError "Failed to ready files for submission.") ∨
    (c.add run cwd log).2 = .error .fileNotFoundError := by
  have h1 := git_snd_cases run (c.gitArgs cwd ["add", "--all"])
  have h2 := git_snd_cases run (c.gitArgs cwd ["ls-files"])
  unfold StudentAssignmentGitClient.add StudentAssignmentGitClient.add_all
    StudentAssignmentGitClient.ls_files StudentAssignmentGitClient.git_call
  rcases h1 with h1 | h1 | ⟨o1, _, h1⟩ <;> rcases h2 with h2 | h2 | ⟨o2, _, h2⟩ <;>
    simp [h1, h2, Except.map]

theorem commit_push_cases (c : StudentAssignmentGitClient) (run : Runner)
    (cwd : String) (log : Log) :
    (c.commit_push run cwd log).2 = .ok () ∨
    (c.commit_push run cwd log).2 = .error (.runtimeError "Failed to submit.") ∨
    (c.commit_push run cwd log).2 = .error .fileNotFoundError := by
  have h1 := git_snd_cases run (c.gitArgs cwd ["commit", "--allow-empty", "--message", "Automated commit by submit50"])
  have h2 := git_snd_cases run (c.gitArgs cwd ["branch", "--show-current"])
  unfold StudentAssignmentGitClient.commit_push StudentAssignmentGitClient.commit
    StudentAssignmentGitClient.push StudentAssignmentGitClient.current_branch
    StudentAssignmentGitClient.git_call
  rcases h1 with h1 | h1 | ⟨o1, _, h1⟩ <;> rcases h2 with h2 | h2 | ⟨o2, _, h2⟩ <;>
    simp [h1, h2, Except.map]
  rcases git_snd_cases run (c.gitArgs cwd ["push", "--quiet", "origin", pyRstrip o2]) with
    h3 | h3 | ⟨o3, _, h3⟩ <;> simp [h3]

theorem assert_git_installed_cases (run : Runner) (log : Log) :
    (assert_git_installed run log).2 = .ok () ∨
    (assert_git_installed run log).2 =
      .error (.runtimeError "It looks like git is not installed. Please install git then try again.") ∨
    (assert_git_installed run log).2 = .error .calledProcessError := by
  have h := git_snd_cases run ["--version"]
  unfold assert_git_installed
  rcases h with h | h | ⟨o, _, h⟩ <;> simp [h]

/-! ### C1 -/

/-- C1: the claim says an override for a key is added only when that key is
unset globally (the query fails); it is FALSE on the code.  In the world
`configuredRun` all three keys are set globally (every `git config --get`
query succeeds with non-empty output), yet the derived override list still
contains a `-c` entry for each of them: `not_configured` returns the query
output (truthy bytes) on success — its trailing `return False` is
unreachable — so `_default_configs` adds every override.  The spec is the
evident intent and the code a slip, hence a code bug. -/
theorem C1_override_added_despite_configured_key :
    configuredRun ["git", "config", "--get", "user.name"] = .success "Alice\n" ∧
    (StudentAssignmentGitClient.default_configs configuredRun "alice" []).2 =
      .ok ["-c", "user.name=alice", "-c", "user.email=alice@users.noreply.github.com",
           "-c", "credential.helper=cache"] := by
  exact ⟨rfl, by decide⟩

/-! ### C2 -/

/-- C2, counterexample: with the default host prefix and repository
`org/repo`, the constructed remote URL is `git@github.com:/org/repo`
(`os.path.join` inserts a `/`), not `git@github.com:org/repo` as the claim
states. -/
theorem C2_counterexample :
    posixJoin "git@github.com:" "org/repo" = "git@github.com:/org/repo" ∧
    posixJoin "git@github.com:" "org/repo" ≠ "git@github.com:org/repo" := by
  exact ⟨by decide, by decide⟩

/-- C2, amended: for every host prefix and repository path the remote URL is
the POSIX path join of the two, which inserts a `/` separator whenever the
host prefix is non-empty and does not already end in `/` and the repository
path does not start with `/`; so in general the URL is
`<host-prefix>/<repository-path>`, not a bare concatenation. -/
theorem C2_remote_url (host repo : String)
    (h1 : repo.data.head? ≠ some '/') (h2 : host.data.getLast? ≠ some '/')
    (h3 : host ≠ "") :
    posixJoin host repo = host ++ "/" ++ repo := by
  simp [posixJoin, h1, h2, h3]

/-- Witness for C2 at the spec's end-to-end scenario. -/
theorem C2_remote_url_witness :
    "org/repo".data.head? ≠ some '/' ∧ "git@github.com:".data.getLast? ≠ some '/' ∧
    "git@github.com:" ≠ "" ∧
    posixJoin "git@github.com:" "org/repo" = "git@github.com:" ++ "/" ++ "org/repo" :=
  ⟨by decide, by decide, by decide,
    C2_remote_url "git@github.com:" "org/repo" (by decide) (by decide) (by decide)⟩

/-! ### C3 -/

/-- C3, counterexample: in the spec's end-to-end scenario (identity `alice`,
repository `org/repo`, default host) a failing bare clone produces the
message with remote `git@github.com:/org/repo` (the path join inserts a
`/`), not the remote `git@github.com:org/repo` the claim states. -/
theorem C3_counterexample :
    (aliceClient.clone_bare failRun "/work" "/tmp/x" []).2.2 =
      .error (.runtimeError "Failed to clone \"git@github.com:/org/repo\".\nPlease make sure you accepted the assignment invite on the problem set page.") ∧
    (aliceClient.clone_bare failRun "/work" "/tmp/x" []).2.2 ≠
      .error (.runtimeError "Failed to clone \"git@github.com:org/repo\".\nPlease make sure you accepted the assignment invite on the problem set page.") := by
  exact ⟨by decide, by decide⟩

/-- C3, amended: whenever the underlying bare-clone invocation exits
non-zero, `clone_bare` raises exactly
`Failed to clone "<remote>".` + newline +
`Please make sure you accepted the assignment invite on the problem set page.`,
where `<remote>` is the constructed remote URL — which for identity `alice`,
repository `org/repo` and the default host is `git@github.com:/org/repo`. -/
theorem C3_clone_bare_error_message (run : Runner) (cwd tmp : String)
    (c : StudentAssignmentGitClient) (log : Log)
    (h : run (cloneBareArgv c cwd tmp) = .calledProcessError) :
    (c.clone_bare run cwd tmp log).2.2 =
      .error (.runtimeError ("Failed to clone \"" ++ posixJoin c.git_host c.repo ++
        "\".\nPlease make sure you accepted the assignment invite on the problem set page.")) := by
  have h' : run ("git" :: c.gitArgs cwd ("clone" :: ["--bare", "--quiet", posixJoin c.git_host c.repo, tmp])) =
      .calledProcessError := h
  unfold StudentAssignmentGitClient.clone_bare StudentAssignmentGitClient.clone_call
    StudentAssignmentGitClient.git_call git
  simp [h']

/-- Witness for C3 at the end-to-end scenario. -/
theorem C3_clone_bare_error_message_witness :
    (aliceClient.clone_bare failRun "/work" "/tmp/x" []).2.2 =
      .error (.runtimeError ("Failed to clone \"" ++
        posixJoin aliceClient.git_host aliceClient.repo ++
        "\".\nPlease make sure you accepted the assignment invite on the problem set page.")) :=
  C3_clone_bare_error_message failRun "/work" "/tmp/x" aliceClient [] rfl

/-! ### C4 -/

/-- C4, counterexample: a missing executable is NOT caught by the template
clone — the raw `FileNotFoundError` escapes it, contradicting the claim that
no raw execution failure (process-error or file-not-found) escapes any
public operation. -/
theorem C4_counterexample :
    (AssignmentTemplateGitClient.clone (GitClient.init none "org/repo") missingRun "/tmp/t" []).2 =
      .error .fileNotFoundError := by
  decide

/-- C4, amended: each public operation catches exactly its designated raw
failure kind and re-raises it as a user-facing error: the two clones,
staging and commit-and-push never let a process-error (non-zero exit)
escape, and the standalone installed-check never lets a file-not-found
escape.  (The other raw kind escapes each of them, per the
counterexample.) -/
theorem C4_caught_error_kinds (run : Runner) (g : GitClient)
    (c : StudentAssignmentGitClient) (cwd tmp temp_dir : String) (log : Log) :
    (AssignmentTemplateGitClient.clone g run temp_dir log).2 ≠ .error .calledProcessError ∧
    (c.clone_bare run cwd tmp log).2.2 ≠ .error .calledProcessError ∧
    (c.add run cwd log).2 ≠ .error .calledProcessError ∧
    (c.commit_push run cwd log).2 ≠ .error .calledProcessError ∧
    (assert_git_installed run log).2 ≠ .error .fileNotFoundError := by
  refine ⟨?_, ?_, ?_, ?_, ?_⟩
  · rcases template_clone_cases g run temp_dir log with h | h | h <;> simp [h]
  · rcases clone_bare_cases c run cwd tmp log with h | h | h <;> simp [h]
  · rcases add_cases c run cwd log with ⟨files, h⟩ | h | h <;> simp [h]
  · rcases commit_push_cases c run cwd log with h | h | h <;> simp [h]
  · rcases assert_git_installed_cases run log with h | h | h <;> simp [h]

/-- Witness for C4 at a concrete world and client. -/
theorem C4_caught_error_kinds_witness :
    (aliceClient.add failRun "/work" []).2 ≠ .error .calledProcessError :=
  (C4_caught_error_kinds failRun (GitClient.init none "org/repo") aliceClient
    "/work" "/tmp/x" "/tmp/t" []).2.2.1

/-! ### C5 -/

/-- C5, counterexample: a single tracked file named `a b` (its name contains
a space) is reported by `ls-files` as the one-line output `a b\n`, but the
staging operation returns `["a", "b"]` — `str.split()` splits on every run
of whitespace — which is not a permutation of the reported tracked-file set
`["a b"]`. -/
theorem C5_counterexample :
    lsFilesOutput ["a b"] = "a b\n" ∧
    spaceFileRun ("git" :: aliceClient.gitArgs "/work" ["ls-files"]) = .success "a b\n" ∧
    (aliceClient.add spaceFileRun "/work" []).2 = .ok ["a", "b"] ∧
    ¬ (["a", "b"] : List String).Perm ["a b"] := by
  refine ⟨by decide, by decide, by decide, fun h => ?_⟩
  simpa using h.length_eq

/-- C5, amended: when every reported tracked-file name is non-empty and
contains no whitespace, the staging operation returns exactly the sorted
copy of the reported names: ascending in the lexicographic order on raw
path text, and a permutation of the tracked-file set.  (For names with
whitespace the output is the sorted list of whitespace-separated tokens
instead, per the counterexample.) -/
theorem C5_add_sorted_perm (run : Runner) (cwd : String)
    (c : StudentAssignmentGitClient) (log : Log) (names : List String) (o : String)
    (h1 : run ("git" :: c.gitArgs cwd ["add", "--all"]) = .success o)
    (h2 : run ("git" :: c.gitArgs cwd ["ls-files"]) = .success (lsFilesOutput names))
    (h3 : ∀ n ∈ names, n.data ≠ [] ∧ ∀ ch ∈ n.data, isPySpace ch = false) :
    (c.add run cwd log).2 = .ok (pySorted names) ∧
    (pySorted names).Pairwise (fun a b => pyStrLe a b = true) ∧
    (pySorted names).Perm names := by
  refine ⟨?_, pySorted_pairwise names, pySorted_perm names⟩
  unfold StudentAssignmentGitClient.add StudentAssignmentGitClient.add_all
    StudentAssignmentGitClient.ls_files StudentAssignmentGitClient.git_call git
  simp [h1, h2, Except.map, pySplit_lsFilesOutput names h3]

/-- Witness for C5: ls-files reports `b` and `a`; staging returns them
sorted. -/
theorem C5_add_sorted_perm_witness :
    (aliceClient.add lsRun "/work" []).2 = .ok (pySorted ["b", "a"]) ∧
    (pySorted ["b", "a"]).Pairwise (fun a b => pyStrLe a b = true) ∧
    (pySorted ["b", "a"]).Perm ["b", "a"] :=
  C5_add_sorted_perm lsRun "/work" aliceClient [] ["b", "a"] "" rfl (by decide) (by decide)

/-! ### Helper lemmas for the configuration queries -/

theorem not_configured_snd_cases (run : Runner) (key : String) :
    (∀ log, (not_configured run key log).2 = .error .fileNotFoundError) ∨
    ∃ v : NotConfiguredResult, ∀ log, (not_configured run key log).2 = .ok v := by
  unfold not_configured config
  rcases git_snd_cases run ("config" :: ["--get", key]) with h | h | ⟨o, _, h⟩
  · exact Or.inr ⟨.queryFailed, fun log => by simp [h]⟩
  · exact Or.inl fun log => by simp [h]
  · exact Or.inr ⟨.output o, fun log => by simp [h]⟩

theorem not_configured_of_cpe (run : Runner) (key : String)
    (h : run ["git", "config", "--get", key] = .calledProcessError) :
    ∀ log, (not_configured run key log).2 = .ok .queryFailed := by
  intro log
  unfold not_configured config git
  simp [show run ("git" :: "config" :: ["--get", key]) = .calledProcessError from h]

theorem default_configs_snd_cases (run : Runner) (username : String) (log : Log) :
    (StudentAssignmentGitClient.default_configs run username log).2 = .error .fileNotFoundError ∨
    ∃ v1 v2 v3 : NotConfiguredResult,
      (∀ log, (not_configured run "user.name" log).2 = .ok v1) ∧
      (∀ log, (not_configured run "user.email" log).2 = .ok v2) ∧
      (∀ log, (not_configured run "credential.helper" log).2 = .ok v3) ∧
      (StudentAssignmentGitClient.default_configs run username log).2 =
        .ok ((if v1.truthy then ["-c", "user.name=" ++ username] else []) ++
             (if v2.truthy then ["-c", "user.email=" ++ username ++ "@users.noreply.github.com"] else []) ++
             (if v3.truthy then ["-c", "credential.helper=cache"] else [])) := by
  unfold StudentAssignmentGitClient.default_configs user_name_not_configured
    user_email_not_configured credential_helper_not_configured
  rcases not_configured_snd_cases run "user.name" with hn | ⟨v1, hn⟩
  · exact Or.inl (by simp [hn])
  rcases not_configured_snd_cases run "user.email" with he | ⟨v2, he⟩
  · exact Or.inl (by simp [hn, he])
  rcases not_configured_snd_cases run "credential.helper" with hc | ⟨v3, hc⟩
  · exact Or.inl (by simp [hn, he, hc])
  exact Or.inr ⟨v1, v2, v3, hn, he, hc, by simp [hn, he, hc]⟩

/-! ### C6 -/

/-- C6: if the configuration query for a key exits non-zero — for any
reason, even when the key actually exists — the key is treated as
unconfigured (`not_configured` returns `True`, never an error), and the
derived override list (whenever the derivation completes) contains the
corresponding `-c` override for that key. -/
theorem C6_query_failure_treated_unconfigured (run : Runner) (username key : String)
    (log : Log) (cfgs : List String)
    (hkey : key = "user.name" ∨ key = "user.email" ∨ key = "credential.helper")
    (h : run ["git", "config", "--get", key] = .calledProcessError)
    (hd : (StudentAssignmentGitClient.default_configs run username log).2 = .ok cfgs) :
    (not_configured run key log).2 = .ok .queryFailed ∧
    (key = "user.name" → List.Sublist ["-c", "user.name=" ++ username] cfgs) ∧
    (key = "user.email" →
      List.Sublist ["-c", "user.email=" ++ username ++ "@users.noreply.github.com"] cfgs) ∧
    (key = "credential.helper" → List.Sublist ["-c", "credential.helper=cache"] cfgs) := by
  rcases default_configs_snd_cases run username log with hfnf | ⟨v1, v2, v3, hn, he, hc, heq⟩
  · rw [hfnf] at hd; exact absurd hd (by simp)
  rw [heq] at hd
  obtain rfl : _ = cfgs := Except.ok.inj hd
  refine ⟨not_configured_of_cpe run key h log, ?_, ?_, ?_⟩
  · intro hk; subst hk
    obtain rfl : v1 = .queryFailed :=
      Except.ok.inj ((hn log).symm.trans (not_configured_of_cpe run "user.name" h log))
    simp only [NotConfiguredResult.truthy, if_true]
    exact (List.sublist_append_left _ _).trans (List.sublist_append_left _ _)
  · intro hk; subst hk
    obtain rfl : v2 = .queryFailed :=
      Except.ok.inj ((he log).symm.trans (not_configured_of_cpe run "user.email" h log))
    simp only [NotConfiguredResult.truthy, if_true]
    exact ((List.sublist_append_right _ _).trans (List.sublist_append_left _ _))
  · intro hk; subst hk
    obtain rfl : v3 = .queryFailed :=
      Except.ok.inj ((hc log).symm.trans (not_configured_of_cpe run "credential.helper" h log))
    simp only [NotConfiguredResult.truthy, if_true]
    exact List.sublist_append_right _ _

/-- Witness for C6: nothing configured, key `user.name`. -/
theorem C6_query_failure_witness :
    (not_configured failRun "user.name" []).2 = .ok .queryFailed ∧
    ("user.name" = "user.name" → List.Sublist ["-c", "user.name=" ++ "alice"]
      ["-c", "user.name=alice", "-c", "user.email=alice@users.noreply.github.com",
       "-c", "credential.helper=cache"]) ∧
    ("user.name" = "user.email" →
      List.Sublist ["-c", "user.email=" ++ "alice" ++ "@users.noreply.github.com"]
        ["-c", "user.name=alice", "-c", "user.email=alice@users.noreply.github.com",
         "-c", "credential.helper=cache"]) ∧
    ("user.name" = "credential.helper" → List.Sublist ["-c", "credential.helper=cache"]
      ["-c", "user.name=alice", "-c", "user.email=alice@users.noreply.github.com",
       "-c", "credential.helper=cache"]) :=
  C6_query_failure_treated_unconfigured failRun "alice" "user.name" []
    ["-c", "user.name=alice", "-c", "user.email=alice@users.noreply.github.com",
     "-c", "credential.helper=cache"]
    (Or.inl rfl) rfl (by decide)

/-! ### C7 -/

/-- C7, counterexample: with host prefix `git@gitlab.com:` and `user.email`
unset globally, the derived override is still
`user.email=alice@users.noreply.github.com` — domain `github.com`, not the
host's domain `gitlab.com` as the claim states (no gitlab-domain entry
exists in the list). -/
theorem C7_counterexample :
    (StudentAssignmentGitClient.init failRun none "alice" "org/repo" [] "git@gitlab.com:").2 =
      .ok { git_host := "git@gitlab.com:", repo := "org/repo", git_dir := none,
            username := "alice",
            configs := ["-c", "user.name=alice",
                        "-c", "user.email=alice@users.noreply.github.com",
                        "-c", "credential.helper=cache"] } ∧
    "user.email=alice@users.noreply.gitlab.com" ∉
      (["-c", "user.name=alice", "-c", "user.email=alice@users.noreply.github.com",
        "-c", "credential.helper=cache"] : List String) := by
  exact ⟨by decide, by decide⟩

/-- C7, amended: when the `user.email` query fails, the derived override is
always `user.email=<identity>@users.noreply.github.com` — the domain is the
hard-coded `github.com`, independent of the host prefix: two clients built
with different host prefixes derive identical override lists. -/
theorem C7_email_override_fixed_domain (run : Runner) (env : Option String)
    (username repo host1 host2 : String) (log : Log)
    (c1 c2 : StudentAssignmentGitClient)
    (h : run ["git", "config", "--get", "user.email"] = .calledProcessError)
    (h1 : (StudentAssignmentGitClient.init run env username repo log host1).2 = .ok c1)
    (h2 : (StudentAssignmentGitClient.init run env username repo log host2).2 = .ok c2) :
    ("user.email=" ++ username ++ "@users.noreply.github.com") ∈ c1.configs ∧
    c1.configs = c2.configs := by
  unfold StudentAssignmentGitClient.init at h1 h2
  rcases default_configs_snd_cases run username log with hfnf | ⟨v1, v2, v3, hn, he, hc, heq⟩
  · simp [hfnf, Except.map] at h1
  obtain rfl : v2 = .queryFailed :=
    Except.ok.inj ((he log).symm.trans (not_configured_of_cpe run "user.email" h log))
  simp only [heq, Except.map] at h1 h2
  obtain rfl : _ = c1 := Except.ok.inj h1
  obtain rfl : _ = c2 := Except.ok.inj h2
  refine ⟨?_, rfl⟩
  simp [NotConfiguredResult.truthy, List.mem_append]

/-- Witness for C7: the gitlab-host client and the default-host client
derive the same list, containing the github.com override. -/
theorem C7_email_override_witness :
    ("user.email=" ++ "alice" ++ "@users.noreply.github.com") ∈ gitlabClient.configs ∧
    gitlabClient.configs = aliceClient.configs :=
  C7_email_override_fixed_domain failRun none "alice" "org/repo"
    "git@gitlab.com:" "git@github.com:" [] gitlabClient aliceClient
    rfl (by decide) (by decide)

/-! ### C8 -/

/-- C8: `commit_push` first issues the commit with `--allow-empty` and the
fixed message `Automated commit by submit50`, then the branch-name query,
then the quiet push to remote `origin` on the branch just determined — in
exactly that order, as recorded by the invocation log; and whenever a step
exits non-zero, it raises exactly `RuntimeError('Failed to submit.')` and
issues no further invocation. -/
theorem C8_commit_push_order_and_failure (run : Runner) (cwd : String)
    (c : StudentAssignmentGitClient) (log : Log) :
    (∀ co bo po, run (commitArgv c cwd) = .success co →
      run (branchArgv c cwd) = .success bo →
      run (pushArgv c cwd (pyRstrip bo)) = .success po →
      c.commit_push run cwd log =
        (log ++ [commitArgv c cwd, branchArgv c cwd, pushArgv c cwd (pyRstrip bo)], .ok ())) ∧
    (run (commitArgv c cwd) = .calledProcessError →
      c.commit_push run cwd log =
        (log ++ [commitArgv c cwd], .error (.runtimeError "Failed to submit."))) ∧
    (∀ co, run (commitArgv c cwd) = .success co →
      run (branchArgv c cwd) = .calledProcessError →
      c.commit_push run cwd log =
        (log ++ [commitArgv c cwd, branchArgv c cwd], .error (.runtimeError "Failed to submit."))) ∧
    (∀ co bo, run (commitArgv c cwd) = .success co →
      run (branchArgv c cwd) = .success bo →
      run (pushArgv c cwd (pyRstrip bo)) = .calledProcessError →
      c.commit_push run cwd log =
        (log ++ [commitArgv c cwd, branchArgv c cwd, pushArgv c cwd (pyRstrip bo)],
          .error (.runtimeError "Failed to submit."))) := by
  unfold StudentAssignmentGitClient.commit_push StudentAssignmentGitClient.commit
    StudentAssignmentGitClient.push StudentAssignmentGitClient.current_branch
    StudentAssignmentGitClient.git_call git
  refine ⟨?_, ?_, ?_, ?_⟩
  · intro co bo po h1 h2 h3
    simp only [commitArgv, branchArgv, pushArgv] at h1 h2 h3
    simp [h1, h2, h3, Except.map, commitArgv, branchArgv, pushArgv]
  · intro h1
    simp only [commitArgv] at h1
    simp [h1, commitArgv]
  · intro co h1 h2
    simp only [commitArgv, branchArgv] at h1 h2
    simp [h1, h2, Except.map, commitArgv, branchArgv]
  · intro co bo h1 h2 h3
    simp only [commitArgv, branchArgv, pushArgv] at h1 h2 h3
    simp [h1, h2, h3, Except.map, commitArgv, branchArgv, pushArgv]

/-- Witness for C8: the all-success world, branch `main`. -/
theorem C8_commit_push_witness :
    aliceClient.commit_push okRun "/work" [] =
      ([commitArgv aliceClient "/work", branchArgv aliceClient "/work",
        pushArgv aliceClient "/work" (pyRstrip "main\n")], .ok ()) :=
  (C8_commit_push_order_and_failure okRun "/work" aliceClient []).1 "" "main\n" ""
    (by decide) (by decide) (by decide)

/-! ### C9 -/

/-- C9: the working-directory handle is bound exactly by a successful bare
clone — set to the fresh temporary directory on success, and left entirely
unchanged by a failed clone — and once it is bound, every invocation issued
by the subsequent operations (staging and commit-and-push) passes
`--git-dir <handle>` right after the binary name. -/
theorem add_log (c : StudentAssignmentGitClient) (run : Runner) (cwd : String) (log : Log) :
    (c.add run cwd log).1 = log ++ ["git" :: c.gitArgs cwd ["add", "--all"]] ∨
    (c.add run cwd log).1 = log ++ ["git" :: c.gitArgs cwd ["add", "--all"],
      "git" :: c.gitArgs cwd ["ls-files"]] := by
  unfold StudentAssignmentGitClient.add StudentAssignmentGitClient.add_all
    StudentAssignmentGitClient.ls_files StudentAssignmentGitClient.git_call
  rcases git_snd_cases run (c.gitArgs cwd ["add", "--all"]) with h1 | h1 | ⟨o1, _, h1⟩ <;>
    rcases git_snd_cases run (c.gitArgs cwd ["ls-files"]) with h2 | h2 | ⟨o2, _, h2⟩ <;>
      simp [h1, h2, Except.map, git_fst]

theorem commit_push_log (c : StudentAssignmentGitClient) (run : Runner)
    (cwd : String) (log : Log) :
    (c.commit_push run cwd log).1 = log ++ [commitArgv c cwd] ∨
    (c.commit_push run cwd log).1 = log ++ [commitArgv c cwd, branchArgv c cwd] ∨
    ∃ b, (c.commit_push run cwd log).1 =
      log ++ [commitArgv c cwd, branchArgv c cwd, pushArgv c cwd b] := by
  unfold StudentAssignmentGitClient.commit_push StudentAssignmentGitClient.commit
    StudentAssignmentGitClient.push StudentAssignmentGitClient.current_branch
    StudentAssignmentGitClient.git_call
  rcases git_snd_cases run (c.gitArgs cwd ["commit", "--allow-empty", "--message", "Automated commit by submit50"]) with
    h1 | h1 | ⟨o1, _, h1⟩
  · left; simp [h1, git_fst, commitArgv]
  · left; simp [h1, git_fst, commitArgv]
  · rcases git_snd_cases run (c.gitArgs cwd ["branch", "--show-current"]) with h2 | h2 | ⟨o2, _, h2⟩
    · right; left; simp [h1, h2, Except.map, git_fst, commitArgv, branchArgv]
    · right; left; simp [h1, h2, Except.map, git_fst, commitArgv, branchArgv]
    · right; right
      refine ⟨pyRstrip o2, ?_⟩
      rcases git_snd_cases run (c.gitArgs cwd ["push", "--quiet", "origin", pyRstrip o2]) with
        h3 | h3 | ⟨o3, _, h3⟩ <;>
          simp [h1, h2, h3, Except.map, git_fst, commitArgv, branchArgv, pushArgv]

/-- C9: the working-directory handle is bound exactly by a successful bare
clone — set to the fresh temporary directory on success, and left entirely
unchanged by a failed clone — and once it is bound, every invocation issued
by the subsequent operations (staging and commit-and-push) passes
`--git-dir <handle>` right after the binary name. -/
theorem C9_git_dir_binding (run : Runner) (cwd tmp : String)
    (c : StudentAssignmentGitClient) (log : Log) (d : String) :
    ((c.clone_bare run cwd tmp log).2.2 = .ok tmp →
      (c.clone_bare run cwd tmp log).2.1.git_dir = some tmp) ∧
    (∀ e, (c.clone_bare run cwd tmp log).2.2 = .error e →
      (c.clone_bare run cwd tmp log).2.1 = c) ∧
    (c.git_dir = some d → d ≠ "" →
      (∀ argv ∈ (c.add run cwd log).1.drop log.length,
        argv.take 3 = ["git", "--git-dir", d]) ∧
      (∀ argv ∈ (c.commit_push run cwd log).1.drop log.length,
        argv.take 3 = ["git", "--git-dir", d])) := by
  refine ⟨?_, ?_, ?_⟩
  · rcases git_snd_cases run (c.gitArgs cwd ("clone" :: ["--bare", "--quiet", posixJoin c.git_host c.repo, tmp])) with
      h | h | ⟨o, _, h⟩ <;>
    · unfold StudentAssignmentGitClient.clone_bare StudentAssignmentGitClient.clone_call
        StudentAssignmentGitClient.git_call
      simp [h]
  · rcases git_snd_cases run (c.gitArgs cwd ("clone" :: ["--bare", "--quiet", posixJoin c.git_host c.repo, tmp])) with
      h | h | ⟨o, _, h⟩ <;>
    · unfold StudentAssignmentGitClient.clone_bare StudentAssignmentGitClient.clone_call
        StudentAssignmentGitClient.git_call
      simp [h]
  · intro hd hd'
    have hargs : ∀ args : List String,
        ("git" :: c.gitArgs cwd args).take 3 = ["git", "--git-dir", d] := by
      intro args
      simp [StudentAssignmentGitClient.gitArgs, hd, hd']
    constructor
    · intro argv hmem
      rcases add_log c run cwd log with hl | hl <;>
        rw [hl, List.drop_left] at hmem <;>
          simp only [List.mem_cons, List.mem_singleton, List.not_mem_nil, or_false] at hmem
      · rcases hmem with rfl
        exact hargs _
      · rcases hmem with rfl | rfl <;> exact hargs _
    · intro argv hmem
      rcases commit_push_log c run cwd log with hl | hl | ⟨b, hl⟩ <;>
        rw [hl, List.drop_left] at hmem <;>
          simp only [List.mem_cons, List.mem_singleton, List.not_mem_nil, or_false] at hmem
      · rcases hmem with rfl
        exact hargs _
      · rcases hmem with rfl | rfl
        · exact hargs _
        · exact hargs _
      · rcases hmem with rfl | rfl | rfl
        · exact hargs _
        · exact hargs _
        · exact hargs _

/-- Witness for C9: a bound client stays bound and passes its handle. -/
theorem C9_git_dir_binding_witness :
    (boundClient.clone_bare okRun "/work" "/tmp/y" []).2.1.git_dir = some "/tmp/y" ∧
    (∀ argv ∈ (boundClient.add okRun "/work" []).1.drop 0,
      argv.take 3 = ["git", "--git-dir", "/tmp/x"]) :=
  ⟨(C9_git_dir_binding okRun "/work" "/tmp/y" boundClient [] "/tmp/x").1 (by decide),
   ((C9_git_dir_binding okRun "/work" "/tmp/y" boundClient [] "/tmp/x").2.2
      rfl (by decide)).1⟩

/-! ### C10 -/

/-- C10: when the clone invocation inside `clone_bare` exits non-zero, the
user-facing error is raised before `git_dir` is ever assigned: the instance
is returned unchanged (in particular `git_dir` keeps its previous value —
`None` for a never-bound instance). -/
theorem C10_failed_clone_leaves_git_dir (run : Runner) (cwd tmp : String)
    (c : StudentAssignmentGitClient) (log : Log)
    (h : run (cloneBareArgv c cwd tmp) = .calledProcessError) :
    (c.clone_bare run cwd tmp log).2.1 = c ∧
    (c.clone_bare run cwd tmp log).2.1.git_dir = c.git_dir ∧
    (c.clone_bare run cwd tmp log).2.2 =
      .error (.runtimeError ("Failed to clone \"" ++ posixJoin c.git_host c.repo ++
        "\".\nPlease make sure you accepted the assignment invite on the problem set page.")) := by
  have h' : run ("git" :: c.gitArgs cwd ("clone" :: ["--bare", "--quiet", posixJoin c.git_host c.repo, tmp])) =
      .calledProcessError := h
  unfold StudentAssignmentGitClient.clone_bare StudentAssignmentGitClient.clone_call
    StudentAssignmentGitClient.git_call git
  refine ⟨?_, ?_, ?_⟩ <;> simp [h']

/-- Witness for C10: a never-bound client keeps `git_dir = none` after a
failed clone. -/
theorem C10_failed_clone_witness :
    (aliceClient.clone_bare failRun "/work" "/tmp/z" []).2.1 = aliceClient ∧
    (aliceClient.clone_bare failRun "/work" "/tmp/z" []).2.1.git_dir = aliceClient.git_dir ∧
    (aliceClient.clone_bare failRun "/work" "/tmp/z" []).2.2 =
      .error (.runtimeError ("Failed to clone \"" ++
        posixJoin aliceClient.git_host aliceClient.repo ++
        "\".\nPlease make sure you accepted the assignment invite on the problem set page.")) :=
  C10_failed_clone_leaves_git_dir failRun "/work" "/tmp/z" aliceClient [] rfl

end Submit50
